import Mathlib

set_option maxRecDepth 8192

/-
Shallow embedding of the 0xmc/maint-notification repository
(xmaintnote/ticketing.py and xmaintnote/prop.py).

The external JIRA backend is modelled as an explicit state (JiraState)
holding the issues, the transitions the backend offers per issue, the
watcher-attachment failures it produces, and a log of the backend calls
issued so far.  Controller methods thread this state explicitly.  A Python
exception is modelled as an Except error value that carries the controller
and backend state at the moment of the raise, because the backend state is
external and persists across a raise.
-/

/-- The slice of an XMaintNoteEvent read by Ticket.init in ticketing.py.
dtstart and dtend stand for str(event[DTSTART].dt) and
str(event[DTEND].dt). -/
structure XMaintNoteEvent where
  account : String
  impact : String
  maintenance_id : String
  object_id : String
  provider : String
  dtstart : String
  dtend : String
deriving DecidableEq

/-- The fields dict passed to jira.create_issue in JiraTicket.create. -/
structure IssueFields where
  project : String
  summary : String
  labels : List String
  description : String
  issuetype : String
  priority : String
deriving DecidableEq

/-- A JIRA issue: an id plus its fields, mirroring issue.fields access. -/
structure Issue where
  id : Nat
  fields : IssueFields
deriving DecidableEq

/-- One entry of the list returned by jira.transitions. -/
structure Transition where
  id : Nat
  name : String
deriving DecidableEq

/-- One call issued to the JIRA backend, recorded in order. -/
inductive BackendCall where
  | searchCall (query : String)
  | createCall (fields : IssueFields)
  | listTransitionsCall (issueId : Nat)
  | applyTransitionCall (issueId : Nat) (transitionId : Nat)
  | addWatcherCall (issueId : Nat) (watcher : String)
deriving DecidableEq

/-- The errors the controller can raise.  TransitionNotFoundError models
the ValueError raised in JiraTicket.close when no transition matches the
configured name; UnmappedImpactError models the KeyError raised by the
dict lookup pri_mapping[impact] in JiraTicket.create; WatcherError models
a backend failure of jira.add_watcher.  The names follow the error
taxonomy the specification assigns to exactly these raise sites. -/
inductive JiraError where
  | TransitionNotFoundError (name : String)
  | UnmappedImpactError (impact : String)
  | WatcherError (watcher : String)
deriving DecidableEq

/-- The state of the external JIRA backend.  trans lists, per issue id,
the transitions the backend currently offers; failWatchers is the set of
watcher names whose attachment the backend rejects; calls is the log of
backend calls issued so far. -/
structure JiraState where
  issues : List Issue
  nextId : Nat
  trans : List (Nat × List Transition)
  applied : List (Nat × Nat)
  watching : List (Nat × String)
  failWatchers : List String
  calls : List BackendCall
deriving DecidableEq

deriving instance DecidableEq for Except

def pushCall (s : JiraState) (c : BackendCall) : JiraState :=
  { s with calls := s.calls ++ [c] }

/-- The JQL query string built in JiraTicket.exists:
the Python code formats the key into a labels query. -/
def searchQuery (key : String) : String :=
  "labels = " ++ key

/-- Backend semantics of jira.search_issues on that query: the issues
carrying the key as a label, in backend order. -/
def matchesKey (key : String) (i : Issue) : Bool :=
  i.fields.labels.contains key

def JIRA.search_issues (s : JiraState) (key : String) : List Issue × JiraState :=
  (s.issues.filter (matchesKey key), pushCall s (.searchCall (searchQuery key)))

/-- jira.create_issue: allocates the next id and appends the new issue. -/
def JIRA.create_issue (s : JiraState) (f : IssueFields) : Issue × JiraState :=
  let i : Issue := { id := s.nextId, fields := f }
  let s1 := pushCall s (.createCall f)
  (i, { s1 with issues := s1.issues ++ [i], nextId := s1.nextId + 1 })

/-- jira.transitions: the transitions the backend offers for the issue. -/
def JIRA.transitions (s : JiraState) (issueId : Nat) : List Transition × JiraState :=
  ((List.lookup issueId s.trans).getD [], pushCall s (.listTransitionsCall issueId))

/-- jira.transition_issue: applies the transition to the issue. -/
def JIRA.transition_issue (s : JiraState) (issueId : Nat) (transId : Nat) : JiraState :=
  let s1 := pushCall s (.applyTransitionCall issueId transId)
  { s1 with applied := s1.applied ++ [(issueId, transId)] }

/-- jira.add_watcher: fails for watchers the backend rejects. -/
def JIRA.add_watcher (s : JiraState) (issueId : Nat) (w : String) :
    Except (JiraError × JiraState) JiraState :=
  let s1 := pushCall s (.addWatcherCall issueId w)
  if s1.failWatchers.contains w then .error (.WatcherError w, s1)
  else .ok { s1 with watching := s1.watching ++ [(issueId, w)] }

/-- The JiraTicket controller: the attributes set by Ticket.init plus the
configuration stored by JiraTicket post-init.  jira_basic_auth records the
basic_auth value passed to the JIRA client constructor.  pri_mapping maps
an impact name to the name component of the JIRA priority dict. -/
structure JiraTicket where
  account : String
  impact : String
  maintenance_id : String
  object_id : String
  provider : String
  key : String
  title : String
  body : String
  jira_url : String
  jira_basic_auth : Option (Option String × Option String)
  project : String
  issuetype : String
  finished_transition : String
  watchers : List String
  pri_mapping : List (String × String)
  ticket : Option Issue
deriving DecidableEq

/-- The deduplication key built in Ticket.init from the provider, account
and maintenance-id factors joined by colons. -/
def Ticket.mkKey (e : XMaintNoteEvent) : String :=
  e.provider ++ ":" ++ e.account ++ ":" ++ e.maintenance_id

/-- The generated ticket title from Ticket.init. -/
def Ticket.mkTitle (e : XMaintNoteEvent) : String :=
  e.provider ++ " " ++ e.impact ++ " Maintenance for " ++ e.account

/-- The generated ticket body from Ticket.init, after textwrap.dedent has
removed the common 8-space margin of the template and emptied the
whitespace-only lines; faithful when the interpolated values contain no
newline or tab, which dedent would otherwise fold into the margin. -/
def Ticket.mkBody (e : XMaintNoteEvent) : String :=
  "\n" ++ e.provider ++ " is having a maintenance of " ++ e.impact ++
  ". Affected account number\nis " ++ e.account ++ ".\n\nStart time: " ++
  e.dtstart ++ "\nEnd time: " ++ e.dtend ++ "\nImpact: " ++ e.impact ++
  "\nAccount: " ++ e.account ++ "\n"

/-- The default priority mapping installed by JiraTicket post-init when
none is provided; the source maps each impact to a dict whose name
component is the value recorded here. -/
def default_pri_mapping : List (String × String) :=
  [("NO-IMPACT", "Low"), ("REDUCED-REDUNDANCY", "Medium"),
   ("DEGRADED", "High"), ("OUTAGE", "Highest")]

/-- Python truthiness of an optional string: None and the empty string
are falsy. -/
def pyTruthy : Option String → Bool
  | none => false
  | some v => !(v == "")

/-- The credentials handling of JiraTicket post-init: if either part of
the credential tuple is unprovided (falsy), basic_auth is None, otherwise
it is the tuple itself. -/
def mk_basic_auth (username password : Option String) :
    Option (Option String × Option String) :=
  if pyTruthy username && pyTruthy password then some (username, password)
  else none

/-- Ticket.init followed by JiraTicket post-init: derives key, title and
body from the event, computes basic_auth, applies the watcher and
priority-mapping defaults (None and an empty collection are falsy in the
source guards), and stores the configuration.  The ticket handle starts
unset. -/
def JiraTicket.init (event : XMaintNoteEvent) (url : String)
    (username password : Option String)
    (project issuetype finished_transition : String)
    (watchers : Option (List String))
    (pri_mapping : Option (List (String × String))) : JiraTicket :=
  let watchers1 :=
    match watchers with
    | none => []
    | some ws => ws
  let pri_mapping1 :=
    match pri_mapping with
    | none => default_pri_mapping
    | some m => if m.isEmpty then default_pri_mapping else m
  { account := event.account, impact := event.impact,
    maintenance_id := event.maintenance_id, object_id := event.object_id,
    provider := event.provider,
    key := Ticket.mkKey event, title := Ticket.mkTitle event,
    body := Ticket.mkBody event,
    jira_url := url, jira_basic_auth := mk_basic_auth username password,
    project := project, issuetype := issuetype,
    finished_transition := finished_transition,
    watchers := watchers1, pri_mapping := pri_mapping1, ticket := none }

/-- JiraTicket.exists: searches the backend for the key; when matches are
found, binds the handle to the first match and returns True, otherwise
returns False leaving the handle as it was. -/
def JiraTicket.exists (t : JiraTicket) (s : JiraState) :
    Bool × JiraTicket × JiraState :=
  match JIRA.search_issues s t.key with
  | ([], s1) => (false, t, s1)
  | (i :: _, s1) => (true, { t with ticket := some i }, s1)

/-- JiraTicket internal add-watcher helper wrapping jira.add_watcher. -/
def JiraTicket.addWatcher (s : JiraState) (issue : Issue) (watcher : String) :
    Except (JiraError × JiraState) JiraState :=
  JIRA.add_watcher s issue.id watcher

/-- The list comprehension over self.watchers in JiraTicket.create: each
watcher is attached in order with no exception handling, so the first
failure propagates. -/
def addWatchersSeq (s : JiraState) (issue : Issue) :
    List String → Except (JiraError × JiraState) JiraState
  | [] => .ok s
  | w :: ws =>
    match JiraTicket.addWatcher s issue w with
    | .error e => .error e
    | .ok s1 => addWatchersSeq s1 issue ws

/-- JiraTicket.create: if the issue does not exist, builds the fields
dict (the priority lookup raises for an unmapped impact, before any
write), creates the issue, binds the handle, attaches the watchers and
returns True; if it exists, returns False. -/
def JiraTicket.create (t : JiraTicket) (s : JiraState) :
    Except (JiraError × JiraTicket × JiraState) (Bool × JiraTicket × JiraState) :=
  match JiraTicket.exists t s with
  | (false, t1, s1) =>
    match List.lookup t1.impact t1.pri_mapping with
    | none => .error (.UnmappedImpactError t1.impact, t1, s1)
    | some pri =>
      let fields : IssueFields :=
        { project := t1.project, summary := t1.title, labels := [t1.key],
          description := t1.body, issuetype := t1.issuetype, priority := pri }
      match JIRA.create_issue s1 fields with
      | (new_issue, s2) =>
        let t2 := { t1 with ticket := some new_issue }
        match addWatchersSeq s2 new_issue t2.watchers with
        | .error (e, s3) => .error (e, t2, s3)
        | .ok s3 => .ok (true, t2, s3)
  | (true, t1, s1) => .ok (false, t1, s1)

/-- JiraTicket.close: if the issue exists, fetches its transitions,
selects those whose name equals the configured finished transition,
raises when none matches, otherwise applies the first one and falls off
the end of the function, so the Python success path returns None
(modelled as the none component); the no-issue path returns False. -/
def JiraTicket.close (t : JiraTicket) (s : JiraState) :
    Except (JiraError × JiraTicket × JiraState)
      (Option Bool × JiraTicket × JiraState) :=
  match JiraTicket.exists t s with
  | (true, t1, s1) =>
    match t1.ticket with
    | some tkt =>
      match JIRA.transitions s1 tkt.id with
      | (transitions, s2) =>
        let transition_ids :=
          List.map (fun tr => tr.id)
            (List.filter (fun tr => tr.name == t1.finished_transition) transitions)
        match transition_ids with
        | [] => .error (.TransitionNotFoundError t1.finished_transition, t1, s2)
        | tid :: _ => .ok (none, t1, JIRA.transition_issue s2 tkt.id tid)
    -- unreachable: whenever exists returns true it has bound the handle
    | none => .ok (none, t1, s1)
  | (false, t1, s1) => .ok (some false, t1, s1)

/-- Number of issues in the backend carrying the key as a label. -/
def countLabeled (s : JiraState) (key : String) : Nat :=
  (s.issues.filter (matchesKey key)).length

/-- Repeated sequential invocation of create, each call observing the
controller and backend state left by the previous one, whether that call
returned or raised. -/
def createIter : Nat → JiraTicket → JiraState → JiraTicket × JiraState
  | 0, t, s => (t, s)
  | Nat.succ n, t, s =>
    match JiraTicket.create t s with
    | .ok (_, t1, s1) => createIter n t1 s1
    | .error (_, t1, s1) => createIter n t1 s1

/-- The validation outcome of a property constructor in prop.py:
either the value is accepted (and passes through unchanged) or the
constructor raises PropertyError. -/
inductive ValidationOutcome where
  | accepted (value : String)
  | rejected
deriving DecidableEq

/-- The list of known impact types of vXMaintNoteImpact in prop.py. -/
def impact_types : List String :=
  ["NO-IMPACT", "REDUCED-REDUNDANCY", "DEGRADED", "OUTAGE"]

/-- The vXMaintNoteImpact constructor from prop.py: for an unrecognised
impact it only calls LOGGER.error, so the value is accepted unchanged in
every case; the second component lists the impact values reported to the
logger by that call. -/
def vXMaintNoteImpact_init (value : String) : ValidationOutcome × List String :=
  if impact_types.contains value then (.accepted value, [])
  else (.accepted value, [value])

/-- The allowed status values of vXMaintNoteStatus in prop.py. -/
def status_allowed_values : List String :=
  ["TENTATIVE", "CONFIRMED", "CANCELLED", "IN-PROCESS", "COMPLETED"]

/-- The vXMaintNoteStatus constructor from prop.py: unlike the impact
constructor it raises PropertyError for a non-standard value. -/
def vXMaintNoteStatus_init (value : String) : ValidationOutcome :=
  if status_allowed_values.contains value then .accepted value
  else .rejected

/- Branch-by-branch characterisations of the controller operations. -/

theorem exists_none (t : JiraTicket) (s : JiraState)
    (h : s.issues.filter (matchesKey t.key) = []) :
    JiraTicket.exists t s =
      (false, t, pushCall s (.searchCall (searchQuery t.key))) := by
  unfold JiraTicket.exists JIRA.search_issues
  rw [h]

theorem exists_found (t : JiraTicket) (s : JiraState) (i : Issue) (rest : List Issue)
    (h : s.issues.filter (matchesKey t.key) = i :: rest) :
    JiraTicket.exists t s =
      (true, { t with ticket := some i },
       pushCall s (.searchCall (searchQuery t.key))) := by
  unfold JiraTicket.exists JIRA.search_issues
  rw [h]

theorem create_found (t : JiraTicket) (s : JiraState) (i : Issue) (rest : List Issue)
    (h : s.issues.filter (matchesKey t.key) = i :: rest) :
    JiraTicket.create t s =
      .ok (false, { t with ticket := some i },
           pushCall s (.searchCall (searchQuery t.key))) := by
  unfold JiraTicket.create
  rw [exists_found t s i rest h]

theorem create_absent_unmapped (t : JiraTicket) (s : JiraState)
    (h : s.issues.filter (matchesKey t.key) = [])
    (hm : List.lookup t.impact t.pri_mapping = none) :
    JiraTicket.create t s =
      .error (.UnmappedImpactError t.impact, t,
              pushCall s (.searchCall (searchQuery t.key))) := by
  unfold JiraTicket.create
  rw [exists_none t s h]
  simp only [hm]

theorem addWatchersSeq_cases (ws : List String) :
    ∀ (s : JiraState) (i : Issue),
      (∃ s1, addWatchersSeq s i ws = .ok s1 ∧
         s1.issues = s.issues ∧ s1.nextId = s.nextId) ∨
      (∃ w s1, addWatchersSeq s i ws = .error (.WatcherError w, s1) ∧
         s1.issues = s.issues ∧ s1.nextId = s.nextId) := by
  induction ws with
  | nil =>
    intro s i
    left
    exact ⟨s, rfl, rfl, rfl⟩
  | cons w ws ih =>
    intro s i
    unfold addWatchersSeq JiraTicket.addWatcher JIRA.add_watcher
    by_cases hf : (pushCall s (.addWatcherCall i.id w)).failWatchers.contains w
    · right
      simp only [hf, if_pos]
      exact ⟨w, pushCall s (.addWatcherCall i.id w), rfl, rfl, rfl⟩
    · simp only [hf, if_neg, Bool.false_eq_true, not_false_iff]
      rcases ih { pushCall s (.addWatcherCall i.id w) with
                  watching := (pushCall s (.addWatcherCall i.id w)).watching ++ [(i.id, w)] } i with
        ⟨s1, hrun, hiss, hnext⟩ | ⟨w1, s1, hrun, hiss, hnext⟩
      · left
        exact ⟨s1, hrun, hiss, hnext⟩
      · right
        exact ⟨w1, s1, hrun, hiss, hnext⟩

/-- The issue record built by JiraTicket.create in the absent branch,
written out: the fields dict with the controller data and the looked-up
priority, under the next backend id. -/
def createdIssue (t : JiraTicket) (s : JiraState) (pri : String) : Issue :=
  { id := s.nextId,
    fields := { project := t.project, summary := t.title, labels := [t.key],
                description := t.body, issuetype := t.issuetype, priority := pri } }

/-- The backend state right after jira.create_issue in the absent branch
of JiraTicket.create. -/
def createdState (t : JiraTicket) (s : JiraState) (pri : String) : JiraState :=
  let s1 := pushCall s (.searchCall (searchQuery t.key))
  let s2 := pushCall s1 (.createCall (createdIssue t s pri).fields)
  { s2 with issues := s2.issues ++ [createdIssue t s pri], nextId := s2.nextId + 1 }

theorem create_absent_mapped_eq (t : JiraTicket) (s : JiraState) (pri : String)
    (h : s.issues.filter (matchesKey t.key) = [])
    (hm : List.lookup t.impact t.pri_mapping = some pri) :
    JiraTicket.create t s =
      (match addWatchersSeq (createdState t s pri) (createdIssue t s pri) t.watchers with
       | .error (e, s3) => .error (e, { t with ticket := some (createdIssue t s pri) }, s3)
       | .ok s3 => .ok (true, { t with ticket := some (createdIssue t s pri) }, s3)) := by
  unfold JiraTicket.create
  rw [exists_none t s h]
  simp only [hm]
  rfl

theorem create_absent_mapped (t : JiraTicket) (s : JiraState) (pri : String)
    (h : s.issues.filter (matchesKey t.key) = [])
    (hm : List.lookup t.impact t.pri_mapping = some pri) :
    ∃ i s3,
      i.fields.priority = pri ∧ i.fields.labels = [t.key] ∧
      s3.issues = s.issues ++ [i] ∧
      (JiraTicket.create t s = .ok (true, { t with ticket := some i }, s3) ∨
       ∃ w, JiraTicket.create t s =
         .error (.WatcherError w, { t with ticket := some i }, s3)) := by
  have hc := create_absent_mapped_eq t s pri h hm
  rcases addWatchersSeq_cases t.watchers (createdState t s pri) (createdIssue t s pri) with
    ⟨s3, hrun, hiss, _⟩ | ⟨w, s3, hrun, hiss, _⟩
  · refine ⟨createdIssue t s pri, s3, rfl, rfl, ?_, Or.inl ?_⟩
    · rw [hiss]; rfl
    · rw [hc, hrun]
  · refine ⟨createdIssue t s pri, s3, rfl, rfl, ?_, Or.inr ⟨w, ?_⟩⟩
    · rw [hiss]; rfl
    · rw [hc, hrun]

theorem countLabeled_pushCall (s : JiraState) (c : BackendCall) (k : String) :
    countLabeled (pushCall s c) k = countLabeled s k := rfl

theorem matchesKey_of_labels (k : String) (i : Issue)
    (hl : i.fields.labels = [k]) : matchesKey k i = true := by
  simp [matchesKey, hl, List.contains_cons]

theorem createIter_bound (n : Nat) : ∀ (t : JiraTicket) (s : JiraState),
    (createIter n t s).1.key = t.key ∧
    countLabeled (createIter n t s).2 t.key ≤ max 1 (countLabeled s t.key) := by
  induction n with
  | zero =>
    intro t s
    exact ⟨rfl, le_max_right 1 _⟩
  | succ n ih =>
    intro t s
    cases hfil : s.issues.filter (matchesKey t.key) with
    | cons i rest =>
      have hc := create_found t s i rest hfil
      unfold createIter
      rw [hc]
      obtain ⟨hk, hcnt⟩ :=
        ih { t with ticket := some i } (pushCall s (.searchCall (searchQuery t.key)))
      exact ⟨by simpa using hk, by simpa [countLabeled_pushCall] using hcnt⟩
    | nil =>
      cases hm : List.lookup t.impact t.pri_mapping with
      | none =>
        have hc := create_absent_unmapped t s hfil hm
        unfold createIter
        rw [hc]
        obtain ⟨hk, hcnt⟩ := ih t (pushCall s (.searchCall (searchQuery t.key)))
        exact ⟨hk, by simpa [countLabeled_pushCall] using hcnt⟩
      | some pri =>
        obtain ⟨i, s3, hpri, hlab, hiss, hres⟩ := create_absent_mapped t s pri hfil hm
        have hcount : countLabeled s3 t.key = 1 := by
          unfold countLabeled
          rw [hiss, List.filter_append, hfil]
          simp [matchesKey_of_labels t.key i hlab]
        have hone : ∀ t1, t1.key = t.key →
            countLabeled (createIter n t1 s3).2 t.key ≤ max 1 (countLabeled s t.key) := by
          intro t1 hk1
          obtain ⟨_, hcnt⟩ := ih t1 s3
          rw [hk1] at hcnt
          rw [hcount] at hcnt
          calc countLabeled (createIter n t1 s3).2 t.key ≤ max 1 1 := hcnt
            _ ≤ max 1 (countLabeled s t.key) := by simp
        rcases hres with hok | ⟨w, herr⟩
        · unfold createIter
          rw [hok]
          obtain ⟨hk, _⟩ := ih { t with ticket := some i } s3
          exact ⟨by simpa using hk, hone { t with ticket := some i } (by simp)⟩
        · unfold createIter
          rw [herr]
          obtain ⟨hk, _⟩ := ih { t with ticket := some i } s3
          exact ⟨by simpa using hk, hone { t with ticket := some i } (by simp)⟩

/- Concrete scenarios used by witnesses and counterexamples. -/

def ev0 : XMaintNoteEvent :=
  { account := "137.035999173", impact := "NO-IMPACT",
    maintenance_id := "WorkOrder-31415",
    object_id := "acme-widgets-as-a-service", provider := "example.com",
    dtstart := "2017-07-15 00:00:00+00:00",
    dtend := "2017-07-16 00:00:00+00:00" }

/-- Same triple as ev0 but a different object, impact and window. -/
def ev0b : XMaintNoteEvent :=
  { ev0 with
    object_id := "server-42", impact := "OUTAGE",
    dtstart := "2018-01-01 00:00:00+00:00",
    dtend := "2018-01-02 00:00:00+00:00" }

def tkt0 : JiraTicket :=
  JiraTicket.init ev0 "http://localhost" (some "admin") (some "admin")
    "MAINT" "Task" "Done" none none

def s_empty : JiraState :=
  { issues := [], nextId := 0, trans := [], applied := [], watching := [],
    failWatchers := [], calls := [] }

/-- An issue already carrying the key of tkt0 as a label. -/
def issueA : Issue :=
  { id := 0,
    fields := { project := "MAINT", summary := tkt0.title,
                labels := [tkt0.key], description := tkt0.body,
                issuetype := "Task", priority := "Low" } }

def s_withA : JiraState := { s_empty with issues := [issueA], nextId := 1 }

/-- Claim C2: for all valid MaintenanceEvents agreeing on the provider,
account and maintenanceId triple, the derived deduplication key is
identical regardless of objectId, impact or time window, and equals the
colon-joined provider account maintenanceId string. -/
theorem C2_key_deterministic (e1 e2 : XMaintNoteEvent)
    (hp : e1.provider = e2.provider) (ha : e1.account = e2.account)
    (hm : e1.maintenance_id = e2.maintenance_id) :
    Ticket.mkKey e1 = Ticket.mkKey e2 ∧
    Ticket.mkKey e1 = e1.provider ++ ":" ++ e1.account ++ ":" ++ e1.maintenance_id := by
  unfold Ticket.mkKey
  rw [hp, ha, hm]
  exact ⟨rfl, rfl⟩

/-- Witness for C2 at the spec scenario: two events sharing the triple
but differing in objectId, impact and window give the same key, namely
the example string of the claim. -/
theorem C2_key_deterministic_witness :
    Ticket.mkKey ev0 = Ticket.mkKey ev0b ∧
    Ticket.mkKey ev0 = "example.com:137.035999173:WorkOrder-31415" :=
  ⟨(C2_key_deterministic ev0 ev0b rfl rfl rfl).1, by decide⟩

/-- Claim C10: construction initialises the JIRA client anonymously
(basic_auth is None) whenever either the username or the password is
omitted or empty, not only when both are absent; both provided non-empty
is the only authenticated case. -/
theorem C10_anonymous_auth (e : XMaintNoteEvent) (url : String)
    (u p : Option String) (proj it ft : String)
    (ws : Option (List String)) (pm : Option (List (String × String))) :
    (JiraTicket.init e url u p proj it ft ws pm).jira_basic_auth =
      if u = none ∨ u = some "" ∨ p = none ∨ p = some "" then none
      else some (u, p) := by
  have hinit : (JiraTicket.init e url u p proj it ft ws pm).jira_basic_auth =
      mk_basic_auth u p := rfl
  rw [hinit]
  unfold mk_basic_auth pyTruthy
  cases u with
  | none => simp
  | some a =>
    cases p with
    | none => simp
    | some b =>
      by_cases ha : a = "" <;> by_cases hb : b = "" <;>
        simp [beq_iff_eq, ha, hb]

/-- Claim C1: create re-checks exists first; when a ticket with the key
already exists in the backend, create returns false and issues no create
request (the backend state changes only by the logged search call), so
across repeated sequential create invocations that observe prior tickets
through the same query, at most one ticket ever carries a given key: the
number of key-labelled tickets after any number of sequential create
calls is at most the maximum of 1 and the initial number. -/
theorem C1_create_idempotent (t : JiraTicket) (s : JiraState) :
    (0 < countLabeled s t.key →
      ∃ i, JiraTicket.create t s =
        .ok (false, { t with ticket := some i },
             pushCall s (.searchCall (searchQuery t.key)))) ∧
    ∀ n, countLabeled (createIter n t s).2 t.key ≤ max 1 (countLabeled s t.key) := by
  constructor
  · intro hpos
    cases hfil : s.issues.filter (matchesKey t.key) with
    | nil =>
      have hzero : countLabeled s t.key = 0 := by
        unfold countLabeled
        rw [hfil]
        rfl
      omega
    | cons i rest =>
      exact ⟨i, create_found t s i rest hfil⟩
  · intro n
    exact (createIter_bound n t s).2

/-- Witness for C1: a backend already holding the key-labelled issueA
satisfies the hypothesis; the duplicate create returns false with only
the search logged, and two further sequential creates leave at most one
key-labelled ticket. -/
theorem C1_create_idempotent_witness :
    0 < countLabeled s_withA tkt0.key ∧
    (∃ i, JiraTicket.create tkt0 s_withA =
      .ok (false, { tkt0 with ticket := some i },
           pushCall s_withA (.searchCall (searchQuery tkt0.key)))) ∧
    countLabeled (createIter 2 tkt0 s_withA).2 tkt0.key ≤
      max 1 (countLabeled s_withA tkt0.key) :=
  ⟨by decide, (C1_create_idempotent tkt0 s_withA).1 (by decide),
   (C1_create_idempotent tkt0 s_withA).2 2⟩

/-- Stale controller: tkt0 with the handle still bound to issueA while
the backend no longer holds any issue labelled with the key. -/
def tkt_stale : JiraTicket := { tkt0 with ticket := some issueA }

/-- Counterexample to C3 as stated: with the backend reporting zero
matches for the key, exists returns false but the previously bound
handle is not cleared: it still refers to issueA. -/
theorem C3_stale_handle_counterexample :
    s_empty.issues.filter (matchesKey tkt_stale.key) = [] ∧
    (JiraTicket.exists tkt_stale s_empty).1 = false ∧
    (JiraTicket.exists tkt_stale s_empty).2.1.ticket = some issueA ∧
    ¬ (JiraTicket.exists tkt_stale s_empty).2.1.ticket = none := by
  decide

/-- Claim C3 amended: when the backend search returns one or more
matches, exists binds the controller handle to the first match and
returns true; when it reports zero matches, exists returns false and
leaves the controller unchanged, so the handle keeps whatever value it
had before the call (a previously bound handle is not cleared). -/
theorem C3_exists_binding (t : JiraTicket) (s : JiraState) :
    (∀ i rest, s.issues.filter (matchesKey t.key) = i :: rest →
      JiraTicket.exists t s =
        (true, { t with ticket := some i },
         pushCall s (.searchCall (searchQuery t.key)))) ∧
    (s.issues.filter (matchesKey t.key) = [] →
      JiraTicket.exists t s =
        (false, t, pushCall s (.searchCall (searchQuery t.key)))) :=
  ⟨fun i rest h => exists_found t s i rest h, fun h => exists_none t s h⟩

/-- Witness for C3 amended: a backend holding issueA binds the handle
and returns true; an empty backend returns false leaving the stale
controller exactly as it was. -/
theorem C3_exists_binding_witness :
    JiraTicket.exists tkt0 s_withA =
      (true, { tkt0 with ticket := some issueA },
       pushCall s_withA (.searchCall (searchQuery tkt0.key))) ∧
    JiraTicket.exists tkt_stale s_empty =
      (false, tkt_stale,
       pushCall s_empty (.searchCall (searchQuery tkt_stale.key))) :=
  ⟨(C3_exists_binding tkt0 s_withA).1 issueA [] (by decide),
   (C3_exists_binding tkt_stale s_empty).2 (by decide)⟩

def BackendCall.isTransitionOp : BackendCall → Bool
  | .listTransitionsCall _ => true
  | .applyTransitionCall _ _ => true
  | _ => false

/-- Claim C6: close invoked when no ticket exists for the key returns
false and performs no further backend operation: the resulting backend
state is the input state with only the search call logged, so in
particular no listTransitions and no applyTransition call is issued. -/
theorem C6_close_absent (t : JiraTicket) (s : JiraState)
    (h : s.issues.filter (matchesKey t.key) = []) :
    JiraTicket.close t s =
      .ok (some false, t, pushCall s (.searchCall (searchQuery t.key))) ∧
    (pushCall s (.searchCall (searchQuery t.key))).calls.filter
        BackendCall.isTransitionOp
      = s.calls.filter BackendCall.isTransitionOp := by
  constructor
  · unfold JiraTicket.close
    rw [exists_none t s h]
  · unfold pushCall
    simp [List.filter_append, BackendCall.isTransitionOp]

/-- Witness for C6: close against the empty backend returns false having
issued only the search call. -/
theorem C6_close_absent_witness :
    JiraTicket.close tkt0 s_empty =
      .ok (some false, tkt0, pushCall s_empty (.searchCall (searchQuery tkt0.key))) ∧
    (pushCall s_empty (.searchCall (searchQuery tkt0.key))).calls.filter
        BackendCall.isTransitionOp
      = s_empty.calls.filter BackendCall.isTransitionOp :=
  C6_close_absent tkt0 s_empty (by decide)

/-- Claim C5: when a ticket exists for the key but the backend offers no
transition whose name equals the configured finished transition, close
raises TransitionNotFoundError instead of silently skipping, right after
the search and the transition listing. -/
theorem C5_missing_transition (t : JiraTicket) (s : JiraState)
    (tkt : Issue) (rest : List Issue)
    (hfound : s.issues.filter (matchesKey t.key) = tkt :: rest)
    (htrans : List.filter (fun tr => tr.name == t.finished_transition)
        ((List.lookup tkt.id s.trans).getD []) = []) :
    JiraTicket.close t s =
      .error (.TransitionNotFoundError t.finished_transition,
              { t with ticket := some tkt },
              pushCall (pushCall s (.searchCall (searchQuery t.key)))
                (.listTransitionsCall tkt.id)) := by
  unfold JiraTicket.close
  rw [exists_found t s tkt rest hfound]
  simp only [JIRA.transitions, pushCall]
  rw [htrans]
  rfl

/-- An issue carrying the key of tkt0, under backend id 7. -/
def issueB : Issue :=
  { id := 7,
    fields := { project := "MAINT", summary := tkt0.title,
                labels := [tkt0.key], description := tkt0.body,
                issuetype := "Task", priority := "Low" } }

/-- Backend holding issueB whose only transition is In Progress, while
the configured finished transition of tkt0 is Done. -/
def s_noDone : JiraState :=
  { s_empty with
    issues := [issueB], nextId := 8,
    trans := [(7, [{ id := 1, name := "In Progress" }])] }

/-- Witness for C5 at the spec scenario: transitions carry only
In Progress and the configured name is Done, so close raises. -/
theorem C5_missing_transition_witness :
    JiraTicket.close tkt0 s_noDone =
      .error (.TransitionNotFoundError tkt0.finished_transition,
              { tkt0 with ticket := some issueB },
              pushCall (pushCall s_noDone (.searchCall (searchQuery tkt0.key)))
                (.listTransitionsCall issueB.id)) :=
  C5_missing_transition tkt0 s_noDone issueB [] (by decide) (by decide)

/-- Backend holding issueB with both an In Progress and a Done
transition available. -/
def s_done : JiraState :=
  { s_empty with
    issues := [issueB], nextId := 8,
    trans := [(7, [{ id := 1, name := "In Progress" },
                   { id := 2, name := "Done" }])] }

def tkt0res : JiraTicket := { tkt0 with ticket := some issueB }

/-- The backend state after the successful close of issueB. -/
def s_doneRes : JiraState :=
  { s_done with
    applied := [(7, 2)],
    calls := [.searchCall (searchQuery tkt0.key), .listTransitionsCall 7,
              .applyTransitionCall 7 2] }

/-- Claim C4 (code bug): close does not always return a bool.  On the
success path, where the ticket is found and the configured finished
transition is applied, the Python function body falls off the end
without a return statement and yields None (modelled as the none
result), although the docstring of close promises a bool; only the
no-ticket path returns the bool False. -/
theorem C4_close_success_returns_none :
    JiraTicket.close tkt0 s_done = .ok (none, tkt0res, s_doneRes) ∧
    JiraTicket.close tkt0 s_empty =
      .ok (some false, tkt0,
           pushCall s_empty (.searchCall (searchQuery tkt0.key))) := by
  decide

/-- Claim C7: create derives the new ticket priority by looking up the
event impact in the impact-to-priority mapping; the mapping defaults to
NO-IMPACT Low, REDUCED-REDUNDANCY Medium, DEGRADED High, OUTAGE Highest
when none is configured; and an impact value that is not a key of the
mapping makes create fail with UnmappedImpactError before any write. -/
theorem C7_priority_mapping (t : JiraTicket) (s : JiraState)
    (e : XMaintNoteEvent) (url : String) (u p : Option String)
    (proj it ft : String) (ws : Option (List String))
    (habsent : s.issues.filter (matchesKey t.key) = []) :
    (JiraTicket.init e url u p proj it ft ws none).pri_mapping =
      [("NO-IMPACT", "Low"), ("REDUCED-REDUNDANCY", "Medium"),
       ("DEGRADED", "High"), ("OUTAGE", "Highest")] ∧
    (List.lookup t.impact t.pri_mapping = none →
      JiraTicket.create t s =
        .error (.UnmappedImpactError t.impact, t,
                pushCall s (.searchCall (searchQuery t.key)))) ∧
    (∀ pri, List.lookup t.impact t.pri_mapping = some pri →
      ∃ i s3, i.fields.priority = pri ∧
        (JiraTicket.create t s = .ok (true, { t with ticket := some i }, s3) ∨
         ∃ w, JiraTicket.create t s =
           .error (.WatcherError w, { t with ticket := some i }, s3))) := by
  refine ⟨rfl, fun hm => create_absent_unmapped t s habsent hm, fun pri hm => ?_⟩
  obtain ⟨i, s3, hpri, _, _, hres⟩ := create_absent_mapped t s pri habsent hm
  exact ⟨i, s3, hpri, hres⟩

/-- Controller built over an event whose impact is the unrecognised
value UNKNOWN-TYPE, with the default priority mapping. -/
def tkt_unk : JiraTicket :=
  JiraTicket.init { ev0 with impact := "UNKNOWN-TYPE" } "http://localhost"
    none none "MAINT" "Task" "Done" none none

/-- Witness for C7: the default mapping of an unconfigured controller,
the UnmappedImpactError raised for the unmapped impact UNKNOWN-TYPE, and
the Low priority derived for a NO-IMPACT event, all against the empty
backend. -/
theorem C7_priority_mapping_witness :
    (JiraTicket.init ev0 "http://localhost" none none "MAINT" "Task" "Done"
        none none).pri_mapping =
      [("NO-IMPACT", "Low"), ("REDUCED-REDUNDANCY", "Medium"),
       ("DEGRADED", "High"), ("OUTAGE", "Highest")] ∧
    JiraTicket.create tkt_unk s_empty =
      .error (.UnmappedImpactError tkt_unk.impact, tkt_unk,
              pushCall s_empty (.searchCall (searchQuery tkt_unk.key))) ∧
    (∃ i s3, i.fields.priority = "Low" ∧
      (JiraTicket.create tkt0 s_empty =
          .ok (true, { tkt0 with ticket := some i }, s3) ∨
       ∃ w, JiraTicket.create tkt0 s_empty =
         .error (.WatcherError w, { tkt0 with ticket := some i }, s3))) :=
  ⟨(C7_priority_mapping tkt0 s_empty ev0 "http://localhost" none none
      "MAINT" "Task" "Done" none (by decide)).1,
   (C7_priority_mapping tkt_unk s_empty ev0 "http://localhost" none none
      "MAINT" "Task" "Done" none (by decide)).2.1 (by decide),
   (C7_priority_mapping tkt0 s_empty ev0 "http://localhost" none none
      "MAINT" "Task" "Done" none (by decide)).2.2 "Low" (by decide)⟩

/-- Claim C8 (code bug): the validation layer neither rejects an impact
value outside the closed enumeration nor escalates it to OUTAGE: the
vXMaintNoteImpact constructor only logs the unrecognised value and
accepts it unchanged, so UNKNOWN-TYPE reaches create unmapped, where the
priority lookup then fails with UnmappedImpactError. -/
theorem C8_unrecognised_impact_passes_through :
    vXMaintNoteImpact_init "UNKNOWN-TYPE" =
      (.accepted "UNKNOWN-TYPE", ["UNKNOWN-TYPE"]) ∧
    impact_types.contains "UNKNOWN-TYPE" = false ∧
    tkt_unk.impact = "UNKNOWN-TYPE" ∧
    JiraTicket.create tkt_unk s_empty =
      .error (.UnmappedImpactError "UNKNOWN-TYPE", tkt_unk,
              pushCall s_empty (.searchCall (searchQuery tkt_unk.key))) := by
  decide

/-- Controller configured with the watcher alice over ev0. -/
def tkt_w : JiraTicket :=
  JiraTicket.init ev0 "http://localhost" none none "MAINT" "Task" "Done"
    (some ["alice"]) none

/-- Backend that rejects attaching alice as a watcher. -/
def s_failW : JiraState := { s_empty with failWatchers := ["alice"] }

/-- The fields dict create builds for tkt_w. -/
def fieldsW : IssueFields :=
  { project := "MAINT", summary := tkt_w.title, labels := [tkt_w.key],
    description := tkt_w.body, issuetype := "Task", priority := "Low" }

def issueW : Issue := { id := 0, fields := fieldsW }

def tkt_wRes : JiraTicket := { tkt_w with ticket := some issueW }

/-- The backend state at the moment the watcher attachment fails:
the issue is already created. -/
def s_failWRes : JiraState :=
  { s_failW with
    issues := [issueW], nextId := 1,
    calls := [.searchCall (searchQuery tkt_w.key), .createCall fieldsW,
              .addWatcherCall 0 "alice"] }

/-- Counterexample to C9 as stated: with a backend that fails the
watcher attachment, create does not return true: the WatcherError
propagates out of create, although the ticket had already been created
(one key-labelled issue is in the backend at the moment of the raise). -/
theorem C9_watcher_counterexample :
    JiraTicket.create tkt_w s_failW =
      .error (.WatcherError "alice", tkt_wRes, s_failWRes) ∧
    countLabeled s_failWRes tkt_w.key = 1 := by
  decide

/-- Claim C9 amended: a watcher-attachment failure during create does
not roll back the created ticket: at the moment the WatcherError
propagates, the controller handle is bound to the new key-labelled
issue and that issue is in the backend; but the failure is not caught,
so create raises instead of returning true. -/
theorem C9_watcher_no_rollback (t : JiraTicket) (s : JiraState)
    (w : String) (t1 : JiraTicket) (s1 : JiraState)
    (h : JiraTicket.create t s = .error (.WatcherError w, t1, s1)) :
    ∃ i, t1.ticket = some i ∧ i ∈ s1.issues ∧ matchesKey t.key i = true := by
  cases hfil : s.issues.filter (matchesKey t.key) with
  | cons i rest =>
    rw [create_found t s i rest hfil] at h
    exact absurd h (by simp)
  | nil =>
    cases hm : List.lookup t.impact t.pri_mapping with
    | none =>
      rw [create_absent_unmapped t s hfil hm] at h
      exact absurd h (by simp)
    | some pri =>
      obtain ⟨i, s3, hpri, hlab, hiss, hres⟩ := create_absent_mapped t s pri hfil hm
      rcases hres with hok | ⟨w2, herr⟩
      · rw [hok] at h
        exact absurd h (by simp)
      · rw [herr] at h
        have hinj : JiraError.WatcherError w2 = JiraError.WatcherError w ∧
            { t with ticket := some i } = t1 ∧ s3 = s1 := by
          have := h
          simp only [Except.error.injEq, Prod.mk.injEq] at this
          exact ⟨this.1, this.2.1, this.2.2⟩
        obtain ⟨_, ht, hs⟩ := hinj
        refine ⟨i, ?_, ?_, matchesKey_of_labels t.key i hlab⟩
        · rw [← ht]
        · rw [← hs, hiss]
          exact List.mem_append_right _ (List.mem_singleton_self i)

/-- Witness for C9 amended, applied at the concrete failing scenario. -/
theorem C9_watcher_no_rollback_witness :
    ∃ i, tkt_wRes.ticket = some i ∧ i ∈ s_failWRes.issues ∧
      matchesKey tkt_w.key i = true :=
  C9_watcher_no_rollback tkt_w s_failW "alice" tkt_wRes s_failWRes (by decide)
